import Mathlib

/-!
Shallow embedding of the bounty lifecycle core of the solana-bounty-sdk
repository: the Borsh instruction encoder (core/schemas.ts), the escrow
address derivation seeds (providers/payment/SolanaProvider.ts), the webhook
signature verifier (utils/crypto.ts), the five-stage claim validation
pipeline (core/SecurityValidator.ts) and the lifecycle router
(core/BountyManager.ts).

Bytes are modelled as `Nat` values below 256, byte sequences as `List Nat`.
External systems (the GitHub API, the Solana RPC connection, the node crypto
HMAC) are modelled as explicit environment records or function parameters;
code that throws is modelled with `Except`.
-/

/-- Little-endian base-256 digits of `n`, exactly `k` bytes
(`Buffer.writeBigUInt64LE` digit layout). -/
def natToLeBytes : Nat → Nat → List Nat
  | 0, _ => []
  | k + 1, n => n % 256 :: natToLeBytes k (n / 256)

/-- Model of `numberToLeBytes` from utils/helpers.ts: an 8-byte
little-endian u64 buffer. -/
def numberToLeBytes (num : Nat) : List Nat := natToLeBytes 8 num

/-- Value read back from a little-endian byte list. -/
def leBytesToNat : List Nat → Nat
  | [] => 0
  | b :: bs => b + 256 * leBytesToNat bs

theorem length_natToLeBytes (k n : Nat) : (natToLeBytes k n).length = k := by
  induction k generalizing n with
  | zero => simp [natToLeBytes]
  | succ k ih => simp [natToLeBytes, ih]

theorem leBytesToNat_natToLeBytes (k n : Nat) :
    leBytesToNat (natToLeBytes k n) = n % 256 ^ k := by
  induction k generalizing n with
  | zero => simp [natToLeBytes, leBytesToNat, Nat.mod_one]
  | succ k ih =>
    rw [natToLeBytes, leBytesToNat, ih]
    have e : (256 : Nat) ^ (k + 1) = 256 * 256 ^ k := by ring
    rw [e, Nat.mod_mul]

theorem numberToLeBytes_inj {m n : Nat} (hm : m < 2 ^ 64) (hn : n < 2 ^ 64)
    (h : numberToLeBytes m = numberToLeBytes n) : m = n := by
  have h2 := congrArg leBytesToNat h
  rw [numberToLeBytes, numberToLeBytes, leBytesToNat_natToLeBytes,
    leBytesToNat_natToLeBytes] at h2
  have e : (256 : Nat) ^ 8 = 2 ^ 64 := by norm_num
  rw [e, Nat.mod_eq_of_lt hm, Nat.mod_eq_of_lt hn] at h2
  exact h2

/-! ## Instruction encoding (core/schemas.ts + SolanaProvider.ts) -/

/-- Fields of the CreateEscrow wire record (class `CreateEscrowInstruction`). -/
structure CreateEscrowInstruction where
  repo_hash : List Nat
  issue_number : Nat
  amount : Nat

/-- Fields of the ReleaseEscrow wire record (class `ReleaseEscrowInstruction`). -/
structure ReleaseEscrowInstruction where
  repo_hash : List Nat
  issue_number : Nat

/-- Borsh serialization following `CreateEscrowSchema`: a fixed `[32]` byte
array followed by two u64 little-endian fields, in schema field order. -/
def serializeCreateEscrow (ix : CreateEscrowInstruction) : List Nat :=
  ix.repo_hash ++ natToLeBytes 8 ix.issue_number ++ natToLeBytes 8 ix.amount

/-- Borsh serialization following `ReleaseEscrowSchema`: a fixed `[32]` byte
array followed by one u64 little-endian field. -/
def serializeReleaseEscrow (ix : ReleaseEscrowInstruction) : List Nat :=
  ix.repo_hash ++ natToLeBytes 8 ix.issue_number

/-- `InstructionDiscriminator.CreateEscrow` from core/schemas.ts. -/
def InstructionDiscriminator.CreateEscrow : Nat := 0

/-- `InstructionDiscriminator.ReleaseEscrow` from core/schemas.ts. -/
def InstructionDiscriminator.ReleaseEscrow : Nat := 1

/-- The instruction data built by `SolanaProvider.createEscrow`:
`Buffer.concat([Buffer.from([InstructionDiscriminator.CreateEscrow]), serialize(...)])`. -/
def createEscrowData (ix : CreateEscrowInstruction) : List Nat :=
  InstructionDiscriminator.CreateEscrow :: serializeCreateEscrow ix

/-- The instruction data built by `SolanaProvider.releaseEscrow`. -/
def releaseEscrowData (ix : ReleaseEscrowInstruction) : List Nat :=
  InstructionDiscriminator.ReleaseEscrow :: serializeReleaseEscrow ix

/-! ## Escrow address derivation (SolanaProvider.ts) -/

/-- UTF-8 bytes of the seed tag literal `Buffer.from("escrow")`. -/
def escrowSeedTag : List Nat := [101, 115, 99, 114, 111, 119]

/-- The ordered seed list `[Buffer.from("escrow"), repositoryHash,
numberToLeBytes(issueNumber)]` passed to `PublicKey.findProgramAddressSync`
by `createEscrow`, `releaseEscrow` and `escrowExists`. -/
def escrowSeeds (repositoryHash : List Nat) (issueNumber : Nat) : List (List Nat) :=
  [escrowSeedTag, repositoryHash, numberToLeBytes issueNumber]

/-- The derived escrow address, parametric in the library derivation
function `findProgramAddress` (the SHA-256 based PDA derivation of
@solana/web3.js, external to this repository). -/
def deriveEscrowAddress {α : Type} (findProgramAddress : List (List Nat) → List Nat → α)
    (programId repositoryHash : List Nat) (issueNumber : Nat) : α :=
  findProgramAddress (escrowSeeds repositoryHash issueNumber) programId

/-- The PDA computed at the top of `SolanaProvider.createEscrow`. -/
def createEscrowPda {α : Type} (findProgramAddress : List (List Nat) → List Nat → α)
    (programId repositoryHash : List Nat) (issueNumber : Nat) : α :=
  findProgramAddress [escrowSeedTag, repositoryHash, numberToLeBytes issueNumber] programId

/-- The PDA computed at the top of `SolanaProvider.releaseEscrow`. -/
def releaseEscrowPda {α : Type} (findProgramAddress : List (List Nat) → List Nat → α)
    (programId repositoryHash : List Nat) (issueNumber : Nat) : α :=
  findProgramAddress [escrowSeedTag, repositoryHash, numberToLeBytes issueNumber] programId

/-- C1: instruction encoding is length-exact and lays the fields out as
discriminator 0 then repo_hash, issue_number (LE), amount (LE) for
CreateEscrow (49 bytes) and discriminator 1 then repo_hash, issue_number
(LE) for ReleaseEscrow (41 bytes); determinism holds by construction since
the encoder is a pure function of the record. -/
theorem instruction_encoding_layout (rh : List Nat) (i a : Nat)
    (h : rh.length = 32) :
    createEscrowData ⟨rh, i, a⟩ =
      InstructionDiscriminator.CreateEscrow :: (rh ++ natToLeBytes 8 i ++ natToLeBytes 8 a) ∧
    (createEscrowData ⟨rh, i, a⟩).length = 49 ∧
    releaseEscrowData ⟨rh, i⟩ =
      InstructionDiscriminator.ReleaseEscrow :: (rh ++ natToLeBytes 8 i) ∧
    (releaseEscrowData ⟨rh, i⟩).length = 41 ∧
    InstructionDiscriminator.CreateEscrow = 0 ∧
    InstructionDiscriminator.ReleaseEscrow = 1 := by
  refine ⟨rfl, ?_, rfl, ?_, rfl, rfl⟩ <;>
    simp [createEscrowData, releaseEscrowData, serializeCreateEscrow,
      serializeReleaseEscrow, length_natToLeBytes, h]

/-- Witness for C1 at a concrete record. -/
theorem instruction_encoding_layout_witness :
    (List.replicate 32 7).length = 32 ∧
    (createEscrowData ⟨List.replicate 32 7, 42, 2000000000⟩).length = 49 := by
  refine ⟨by simp, ?_⟩
  exact (instruction_encoding_layout (List.replicate 32 7) 42 2000000000 (by simp)).2.1

/-- C2: escrow address derivation is a pure function of
(programId, repositoryHash, issueNumber): createEscrow and releaseEscrow
compute the PDA from the identical seed list, repeated calls agree, and
whenever the library derivation function is collision-free on seed lists
(for the fixed program id), the derived address is equal exactly when the
repository hash and the (u64-ranged) issue number are equal. -/
theorem deriveEscrowAddress_pure_injective {α : Type}
    (f : List (List Nat) → List Nat → α) (pid : List Nat)
    (hf : ∀ s₁ s₂, f s₁ pid = f s₂ pid → s₁ = s₂)
    (r₁ r₂ : List Nat) (i₁ i₂ : Nat) (h₁ : i₁ < 2 ^ 64) (h₂ : i₂ < 2 ^ 64) :
    createEscrowPda f pid r₁ i₁ = deriveEscrowAddress f pid r₁ i₁ ∧
    releaseEscrowPda f pid r₁ i₁ = deriveEscrowAddress f pid r₁ i₁ ∧
    (deriveEscrowAddress f pid r₁ i₁ = deriveEscrowAddress f pid r₂ i₂ ↔
      (r₁ = r₂ ∧ i₁ = i₂)) := by
  refine ⟨rfl, rfl, ?_, ?_⟩
  · intro h
    have hs := hf _ _ h
    rw [escrowSeeds, escrowSeeds] at hs
    have hr : r₁ = r₂ := by
      have := congrArg (fun l => l.get? 1) hs
      simpa using this
    have hi : numberToLeBytes i₁ = numberToLeBytes i₂ := by
      have := congrArg (fun l => l.get? 2) hs
      simpa using this
    exact ⟨hr, numberToLeBytes_inj h₁ h₂ hi⟩
  · rintro ⟨rfl, rfl⟩
    rfl

/-- Witness for C2 at a concrete collision-free derivation function
(the identity on the seed list) and concrete inputs. -/
theorem deriveEscrowAddress_pure_injective_witness :
    (3 : Nat) < 2 ^ 64 ∧ (4 : Nat) < 2 ^ 64 ∧
    (deriveEscrowAddress (fun s _ => s) [9] [1] 3 =
        deriveEscrowAddress (fun s _ => s) [9] [2] 4 ↔
      (([1] : List Nat) = [2] ∧ (3 : Nat) = 4)) := by
  refine ⟨by norm_num, by norm_num, ?_⟩
  exact (deriveEscrowAddress_pure_injective (fun s _ => s) [9]
    (fun _ _ h => h) [1] [2] 3 4 (by norm_num) (by norm_num)).2.2

/-! ## Webhook signature verification (utils/crypto.ts) -/

/-- UTF-8 bytes of the literal prefix `sha256=`. -/
def sha256PrefixBytes : List Nat := [115, 104, 97, 50, 53, 54, 61]

/-- Model of the node `crypto.timingSafeEqual` function: byte-wise equality when the
two buffers have the same length, a thrown `RangeError` (modelled as
`Except.error`) when the lengths differ. -/
def timingSafeEqual (a b : List Nat) : Except Unit Bool :=
  if a.length = b.length then Except.ok (a == b) else Except.error ()

/-- Model of `verifyGitHubSignature` from utils/crypto.ts, parametric in
the HMAC-SHA256 hex digest (the node crypto library, external to this repository);
`hmacSha256Hex body secret` is the UTF-8 byte sequence of
`createHmac("sha256", secret).update(body).digest("hex")`. Strings are
modelled by their UTF-8 bytes, so the `!signature || !secret` guard is the
emptiness test on the byte lists. -/
def verifyGitHubSignature (hmacSha256Hex : List Nat → List Nat → List Nat)
    (body sig secret : List Nat) : Except Unit Bool :=
  if sig = [] ∨ secret = [] then Except.ok false
  else
    timingSafeEqual sig (sha256PrefixBytes ++ hmacSha256Hex body secret)

/-- The `sha256=<hex>` string the verifier itself computes as `expected`;
this is the signing convention written as sign(P, S) in the spec. -/
def signGitHubPayload (hmacSha256Hex : List Nat → List Nat → List Nat)
    (body secret : List Nat) : List Nat :=
  sha256PrefixBytes ++ hmacSha256Hex body secret

/-- A stand-in digest function with the real output length of the digest
(64 hex characters). -/
def hmacHexStub : List Nat → List Nat → List Nat :=
  fun _ _ => List.replicate 64 48

/-- C3 counterexample: the verifier does not return a boolean on every
input; with a non-empty signature whose byte length differs from the
71-byte expected string, `crypto.timingSafeEqual` throws. -/
theorem verifyGitHubSignature_throws_cex :
    verifyGitHubSignature hmacHexStub [] [48] [49] = Except.error () := by
  simp [verifyGitHubSignature, hmacHexStub, timingSafeEqual, sha256PrefixBytes]

/-- C3 amended: the verifier fails closed on an empty signature or secret,
returning false without consulting the digest function at all; for
non-empty signature and secret it returns a boolean when the byte length of the signature equals 71 (the length of `sha256=` plus 64 hex characters) and
throws otherwise. -/
theorem verifyGitHubSignature_failsClosed (hmacSha256Hex : List Nat → List Nat → List Nat)
    (body sig secret : List Nat)
    (hlen : (hmacSha256Hex body secret).length = 64) :
    (sig = [] ∨ secret = [] →
      verifyGitHubSignature hmacSha256Hex body sig secret = Except.ok false ∧
      ∀ g : List Nat → List Nat → List Nat,
        verifyGitHubSignature g body sig secret =
          verifyGitHubSignature hmacSha256Hex body sig secret) ∧
    (sig ≠ [] → secret ≠ [] → sig.length = 71 →
      ∃ b, verifyGitHubSignature hmacSha256Hex body sig secret = Except.ok b) ∧
    (sig ≠ [] → secret ≠ [] → sig.length ≠ 71 →
      verifyGitHubSignature hmacSha256Hex body sig secret = Except.error ()) := by
  refine ⟨?_, ?_, ?_⟩
  · intro h
    constructor
    · simp [verifyGitHubSignature, h]
    · intro g
      simp [verifyGitHubSignature, h]
  · intro hs hsec hl
    have hor : ¬(sig = [] ∨ secret = []) := by
      rintro (h | h) <;> [exact hs h; exact hsec h]
    refine ⟨(sig == sha256PrefixBytes ++ hmacSha256Hex body secret), ?_⟩
    simp only [verifyGitHubSignature, hor, if_false, timingSafeEqual]
    rw [if_pos]
    simp [sha256PrefixBytes, hlen, hl]
  · intro hs hsec hl
    have hor : ¬(sig = [] ∨ secret = []) := by
      rintro (h | h) <;> [exact hs h; exact hsec h]
    simp only [verifyGitHubSignature, hor, if_false, timingSafeEqual]
    rw [if_neg]
    simp [sha256PrefixBytes, hlen]
    omega

/-- Witness for the amended C3 at concrete inputs. -/
theorem verifyGitHubSignature_failsClosed_witness :
    (hmacHexStub [] [49]).length = 64 ∧
    verifyGitHubSignature hmacHexStub [] [] [49] = Except.ok false := by
  refine ⟨by decide, ?_⟩
  exact (((verifyGitHubSignature_failsClosed hmacHexStub [] [] [49]
    (by decide)).1 (Or.inl rfl)).1)

/-- C4: verifying a payload against the `sha256=<hex>` signature produced
over that same payload and secret succeeds, and verifying a payload with
one byte mutated against that same signature returns false, provided the
digest separates the two payloads (HMAC-SHA256 collision resistance
instantiated at this pair) and has its real 64-character output length. -/
theorem verify_sign_roundtrip (hmacSha256Hex : List Nat → List Nat → List Nat)
    (P S : List Nat) (hS : S ≠ []) (i b : Nat) (hi : i < P.length)
    (hb : P.get ⟨i, hi⟩ ≠ b)
    (hlen : (hmacSha256Hex P S).length = 64)
    (hlenm : (hmacSha256Hex (P.set i b) S).length = 64)
    (hcoll : hmacSha256Hex (P.set i b) S ≠ hmacSha256Hex P S) :
    verifyGitHubSignature hmacSha256Hex P (signGitHubPayload hmacSha256Hex P S) S =
      Except.ok true ∧
    verifyGitHubSignature hmacSha256Hex (P.set i b) (signGitHubPayload hmacSha256Hex P S) S =
      Except.ok false := by
  constructor
  · simp [verifyGitHubSignature, signGitHubPayload, timingSafeEqual,
      sha256PrefixBytes, hS]
  · simp [verifyGitHubSignature, signGitHubPayload, timingSafeEqual,
      sha256PrefixBytes, hS, hlen, hlenm]
    intro hcontra
    exact hcoll hcontra.symm

/-- A stand-in digest whose value depends on the payload, with the real
output length. -/
def hmacHexSum : List Nat → List Nat → List Nat :=
  fun body _ => List.replicate 63 48 ++ [body.sum % 256]

/-- Witness for C4 at a concrete payload, mutation and digest function. -/
theorem verify_sign_roundtrip_witness :
    verifyGitHubSignature hmacHexSum [0, 1] (signGitHubPayload hmacHexSum [0, 1] [7]) [7] =
      Except.ok true ∧
    verifyGitHubSignature hmacHexSum ([0, 1].set 0 5)
        (signGitHubPayload hmacHexSum [0, 1] [7]) [7] =
      Except.ok false := by
  exact verify_sign_roundtrip hmacHexSum [0, 1] [7] (by decide) 0 5 (by decide)
    (by decide) (by decide) (by decide) (by decide)

/-! ## Claim validation pipeline (core/SecurityValidator.ts) -/

/-- The PullRequest view consumed by the validator (core/types.ts). -/
structure PullRequest where
  number : Nat
  state : String
  merged : Bool
  userLogin : String

/-- LinkedIssue from core/types.ts. -/
structure LinkedIssue where
  number : Nat
  bountyAmount : Nat
  label : String

/-- ClaimValidation from core/types.ts. -/
structure ClaimValidation where
  isValid : Bool
  linkedIssue : Option LinkedIssue
  errors : List String

/-- SecurityConfig from core/types.ts; every field is an optional boolean,
`none` standing for an omitted (undefined) flag. -/
structure SecurityConfig where
  skipAssignmentCheck : Option Bool
  requireMergedPR : Option Bool
  requireMaintainerForBountyCreation : Option Bool

/-- Results of the issue-provider calls the validator awaits, one field per
method; `Except.error m` models the call throwing an error with message
`m`. -/
structure ClaimEnv where
  getPullRequest : Nat → Except String PullRequest
  findLinkedIssueWithBounty : Nat → Except String (Option LinkedIssue)
  wasUserEverAssigned : Nat → String → Except String Bool
  isBountyAlreadyClaimed : Nat → Except String Bool

/-- One awaited issue-provider call, recorded in order of execution. -/
inductive ProviderCall where
  | getPullRequest (prNumber : Nat)
  | findLinkedIssueWithBounty (prNumber : Nat)
  | wasUserEverAssigned (issueNumber : Nat) (username : String)
  | isBountyAlreadyClaimed (issueNumber : Nat)
deriving DecidableEq

/-- Check-1 failure text pushed when `getPullRequest` throws. -/
def failedPrMsg (m : String) : String := "Failed to verify pull request: " ++ m

/-- Check-1 failure text for an unmerged pull request. -/
def cannotClaimUnmergedMsg : String :=
  "**Cannot claim bounty**\n\nThis pull request must be merged before claiming the bounty."

/-- Check-2 failure text for a commenter who is not the PR author. -/
def unauthorizedAuthorMsg (commenter author : String) : String :=
  "**Unauthorized claim**\n\n@" ++ commenter ++ " is not the author of this pull request.\n\n" ++
    "Only the PR author (@" ++ author ++ ") can claim the bounty."

/-- Check-3 failure text when no linked issue with a bounty is found. -/
def noBountyFoundMsg : String :=
  "**No bounty found**\n\nThis pull request is not linked to any issue with an active bounty.\n\n" ++
    "Make sure your PR description includes \"Fixes #<issue_number>\" and that the issue has a bounty label."

/-- Check-3 failure text pushed when `findLinkedIssueWithBounty` throws. -/
def failedLinkedIssueMsg (m : String) : String := "Failed to verify linked issue: " ++ m

/-- Check-4 failure text for a commenter never assigned to the issue. -/
def unauthorizedAssignmentMsg (commenter : String) (issueNumber : Nat) : String :=
  "**Unauthorized claim**\n\n@" ++ commenter ++ " was not assigned to issue #" ++
    toString issueNumber ++ ".\n\n" ++
    "Please use `/assign` on the issue before starting work to be eligible for the bounty."

/-- Check-4 failure text pushed when `wasUserEverAssigned` throws. -/
def failedAssignmentMsg (m : String) : String := "Failed to verify assignment: " ++ m

/-- Check-5 failure text for a bounty already claimed. -/
def alreadyClaimedMsg (issueNumber : Nat) : String :=
  "**Bounty already claimed**\n\nThe bounty for issue #" ++ toString issueNumber ++
    " has already been claimed by another contributor."

/-- Check 5 of `SecurityValidator.validateClaim`: the already-claimed
lookup; a thrown lookup error is caught and the pipeline proceeds to the
valid result. -/
def alreadyClaimedCheck (env : ClaimEnv) (li : LinkedIssue) (tr : List ProviderCall) :
    ClaimValidation × List ProviderCall :=
  let tr2 := tr ++ [ProviderCall.isBountyAlreadyClaimed li.number]
  match env.isBountyAlreadyClaimed li.number with
  | Except.ok true => (⟨false, none, [alreadyClaimedMsg li.number]⟩, tr2)
  | Except.ok false => (⟨true, some li, []⟩, tr2)
  | Except.error _ => (⟨true, some li, []⟩, tr2)

/-- Check 4 of `SecurityValidator.validateClaim`: the assignment check,
run unless `skipAssignmentCheck` is truthy, then check 5. -/
def assignmentCheck (env : ClaimEnv) (cfg : SecurityConfig) (commenter : String)
    (li : LinkedIssue) (tr : List ProviderCall) :
    ClaimValidation × List ProviderCall :=
  if cfg.skipAssignmentCheck ≠ some true then
    let tr2 := tr ++ [ProviderCall.wasUserEverAssigned li.number commenter]
    match env.wasUserEverAssigned li.number commenter with
    | Except.error m => (⟨false, none, [failedAssignmentMsg m]⟩, tr2)
    | Except.ok false => (⟨false, none, [unauthorizedAssignmentMsg commenter li.number]⟩, tr2)
    | Except.ok true => alreadyClaimedCheck env li tr2
  else alreadyClaimedCheck env li tr

/-- Model of `SecurityValidator.validateClaim`, returning the validation
result together with the ordered list of issue-provider calls awaited. -/
def validateClaim (env : ClaimEnv) (cfg : SecurityConfig) (prNumber : Nat)
    (commenter : String) : ClaimValidation × List ProviderCall :=
  let tr1 := [ProviderCall.getPullRequest prNumber]
  match env.getPullRequest prNumber with
  | Except.error m => (⟨false, none, [failedPrMsg m]⟩, tr1)
  | Except.ok prData =>
    if cfg.requireMergedPR ≠ some false ∧ prData.merged = false then
      (⟨false, none, [cannotClaimUnmergedMsg]⟩, tr1)
    else if prData.userLogin ≠ commenter then
      (⟨false, none, [unauthorizedAuthorMsg commenter prData.userLogin]⟩, tr1)
    else
      let tr2 := tr1 ++ [ProviderCall.findLinkedIssueWithBounty prNumber]
      match env.findLinkedIssueWithBounty prNumber with
      | Except.error m => (⟨false, none, [failedLinkedIssueMsg m]⟩, tr2)
      | Except.ok none => (⟨false, none, [noBountyFoundMsg]⟩, tr2)
      | Except.ok (some li) => assignmentCheck env cfg commenter li tr2

theorem alreadyClaimedCheck_valid_isSome (env : ClaimEnv) (li : LinkedIssue)
    (tr : List ProviderCall) :
    (alreadyClaimedCheck env li tr).1.isValid = true →
    (alreadyClaimedCheck env li tr).1.linkedIssue.isSome = true := by
  unfold alreadyClaimedCheck
  rcases h : env.isBountyAlreadyClaimed li.number with m | b <;> simp only [h]
  · simp
  · cases b <;> simp

theorem assignmentCheck_valid_isSome (env : ClaimEnv) (cfg : SecurityConfig)
    (c : String) (li : LinkedIssue) (tr : List ProviderCall) :
    (assignmentCheck env cfg c li tr).1.isValid = true →
    (assignmentCheck env cfg c li tr).1.linkedIssue.isSome = true := by
  unfold assignmentCheck
  split
  · rcases h : env.wasUserEverAssigned li.number c with m | b <;> simp only [h]
    · simp
    · cases b
      · simp
      · apply alreadyClaimedCheck_valid_isSome
  · apply alreadyClaimedCheck_valid_isSome

/-- C5: the five checks run in order, the pipeline returns invalid at the
first failing check with no later provider call awaited; a thrown lookup
in check 5 is tolerated (result still valid when checks 1 to 4 passed),
while a thrown lookup in checks 1, 3 or 4 yields an invalid result; the
result is valid with the resolved linked issue exactly when checks 1 to 4
pass and check 5 does not confirm a prior claim. -/
theorem validateClaim_pipeline (env : ClaimEnv) (cfg : SecurityConfig)
    (pr : Nat) (c : String) :
    (∀ m, env.getPullRequest pr = Except.error m →
      validateClaim env cfg pr c =
        (⟨false, none, [failedPrMsg m]⟩, [ProviderCall.getPullRequest pr])) ∧
    (∀ prData, env.getPullRequest pr = Except.ok prData →
      cfg.requireMergedPR ≠ some false → prData.merged = false →
      validateClaim env cfg pr c =
        (⟨false, none, [cannotClaimUnmergedMsg]⟩, [ProviderCall.getPullRequest pr])) ∧
    (∀ prData, env.getPullRequest pr = Except.ok prData →
      ¬(cfg.requireMergedPR ≠ some false ∧ prData.merged = false) →
      prData.userLogin ≠ c →
      validateClaim env cfg pr c =
        (⟨false, none, [unauthorizedAuthorMsg c prData.userLogin]⟩,
          [ProviderCall.getPullRequest pr])) ∧
    (∀ prData m, env.getPullRequest pr = Except.ok prData →
      ¬(cfg.requireMergedPR ≠ some false ∧ prData.merged = false) →
      prData.userLogin = c →
      env.findLinkedIssueWithBounty pr = Except.error m →
      validateClaim env cfg pr c =
        (⟨false, none, [failedLinkedIssueMsg m]⟩,
          [ProviderCall.getPullRequest pr, ProviderCall.findLinkedIssueWithBounty pr])) ∧
    (∀ prData, env.getPullRequest pr = Except.ok prData →
      ¬(cfg.requireMergedPR ≠ some false ∧ prData.merged = false) →
      prData.userLogin = c →
      env.findLinkedIssueWithBounty pr = Except.ok none →
      validateClaim env cfg pr c =
        (⟨false, none, [noBountyFoundMsg]⟩,
          [ProviderCall.getPullRequest pr, ProviderCall.findLinkedIssueWithBounty pr])) ∧
    (∀ prData li m, env.getPullRequest pr = Except.ok prData →
      ¬(cfg.requireMergedPR ≠ some false ∧ prData.merged = false) →
      prData.userLogin = c →
      env.findLinkedIssueWithBounty pr = Except.ok (some li) →
      cfg.skipAssignmentCheck ≠ some true →
      env.wasUserEverAssigned li.number c = Except.error m →
      validateClaim env cfg pr c =
        (⟨false, none, [failedAssignmentMsg m]⟩,
          [ProviderCall.getPullRequest pr, ProviderCall.findLinkedIssueWithBounty pr,
            ProviderCall.wasUserEverAssigned li.number c])) ∧
    (∀ prData li, env.getPullRequest pr = Except.ok prData →
      ¬(cfg.requireMergedPR ≠ some false ∧ prData.merged = false) →
      prData.userLogin = c →
      env.findLinkedIssueWithBounty pr = Except.ok (some li) →
      cfg.skipAssignmentCheck ≠ some true →
      env.wasUserEverAssigned li.number c = Except.ok false →
      validateClaim env cfg pr c =
        (⟨false, none, [unauthorizedAssignmentMsg c li.number]⟩,
          [ProviderCall.getPullRequest pr, ProviderCall.findLinkedIssueWithBounty pr,
            ProviderCall.wasUserEverAssigned li.number c])) ∧
    (∀ prData li, env.getPullRequest pr = Except.ok prData →
      ¬(cfg.requireMergedPR ≠ some false ∧ prData.merged = false) →
      prData.userLogin = c →
      env.findLinkedIssueWithBounty pr = Except.ok (some li) →
      (cfg.skipAssignmentCheck = some true ∨
        env.wasUserEverAssigned li.number c = Except.ok true) →
      ((env.isBountyAlreadyClaimed li.number = Except.ok true →
        (validateClaim env cfg pr c).1 =
          ⟨false, none, [alreadyClaimedMsg li.number]⟩) ∧
      (env.isBountyAlreadyClaimed li.number ≠ Except.ok true →
        (validateClaim env cfg pr c).1 = ⟨true, some li, []⟩))) ∧
    ((validateClaim env cfg pr c).1.isValid = true →
      (validateClaim env cfg pr c).1.linkedIssue.isSome = true) := by
  refine ⟨?_, ?_, ?_, ?_, ?_, ?_, ?_, ?_, ?_⟩
  · intro m h
    simp [validateClaim, h]
  · intro prData h hreq hm
    simp [validateClaim, h, hreq, hm]
  · intro prData h hmerged hauth
    simp only [validateClaim, h]
    rw [if_neg hmerged, if_pos hauth]
  · intro prData m h hmerged hauth h3
    simp only [validateClaim, h]
    rw [if_neg hmerged, if_neg (by simp [hauth])]
    simp [h3]
  · intro prData h hmerged hauth h3
    simp only [validateClaim, h]
    rw [if_neg hmerged, if_neg (by simp [hauth])]
    simp [h3]
  · intro prData li m h hmerged hauth h3 hskip h4
    simp only [validateClaim, h]
    rw [if_neg hmerged, if_neg (by simp [hauth])]
    simp only [h3]
    simp [assignmentCheck, hskip, h4]
  · intro prData li h hmerged hauth h3 hskip h4
    simp only [validateClaim, h]
    rw [if_neg hmerged, if_neg (by simp [hauth])]
    simp only [h3]
    simp [assignmentCheck, hskip, h4]
  · intro prData li h hmerged hauth h3 hassign
    have hstep : (validateClaim env cfg pr c).1 =
        (alreadyClaimedCheck env li
          [ProviderCall.getPullRequest pr, ProviderCall.findLinkedIssueWithBounty pr,
            ProviderCall.wasUserEverAssigned li.number c]).1 ∨
        (validateClaim env cfg pr c).1 =
        (alreadyClaimedCheck env li
          [ProviderCall.getPullRequest pr, ProviderCall.findLinkedIssueWithBounty pr]).1 := by
      rcases hassign with hskip | h4
      · right
        simp only [validateClaim, h]
        rw [if_neg hmerged, if_neg (by simp [hauth])]
        simp only [h3]
        simp [assignmentCheck, hskip]
      · by_cases hskip : cfg.skipAssignmentCheck = some true
        · right
          simp only [validateClaim, h]
          rw [if_neg hmerged, if_neg (by simp [hauth])]
          simp only [h3]
          simp [assignmentCheck, hskip]
        · left
          simp only [validateClaim, h]
          rw [if_neg hmerged, if_neg (by simp [hauth])]
          simp only [h3]
          simp [assignmentCheck, hskip, h4]
    constructor
    · intro h5
      rcases hstep with hstep | hstep <;>
        { rw [hstep]; simp [alreadyClaimedCheck, h5] }
    · intro h5
      rcases hstep with hstep | hstep <;>
        { rw [hstep]
          rcases h6 : env.isBountyAlreadyClaimed li.number with m | b
          · simp [alreadyClaimedCheck, h6]
          · cases b
            · simp [alreadyClaimedCheck, h6]
            · exact absurd h6 h5 }
  · unfold validateClaim
    rcases h : env.getPullRequest pr with m | prData <;> simp only [h]
    · simp
    · split
      · simp
      · split
        · simp
        · rcases h3 : env.findLinkedIssueWithBounty pr with m | li <;>
            first
            | simp only [h3]
            | skip
          · simp
          · rcases li with _ | li
            · simp
            · apply assignmentCheck_valid_isSome

/-- A concrete environment whose pull-request lookup throws. -/
def claimEnvErr : ClaimEnv where
  getPullRequest := fun _ => Except.error "boom"
  findLinkedIssueWithBounty := fun _ => Except.ok none
  wasUserEverAssigned := fun _ _ => Except.ok false
  isBountyAlreadyClaimed := fun _ => Except.ok false

/-- A security configuration with every flag omitted. -/
def cfgNone : SecurityConfig := ⟨none, none, none⟩

/-- Witness for C5 at a concrete environment. -/
theorem validateClaim_pipeline_witness :
    claimEnvErr.getPullRequest 1 = Except.error "boom" ∧
    validateClaim claimEnvErr cfgNone 1 "alice" =
      (⟨false, none, [failedPrMsg "boom"]⟩, [ProviderCall.getPullRequest 1]) :=
  ⟨rfl, (validateClaim_pipeline claimEnvErr cfgNone 1 "alice").1 "boom" rfl⟩

/-! ## Lifecycle router (core/BountyManager.ts) -/

/-- Whitespace for the comment-splitting regex: the full ECMAScript
backslash-s class, that is tab, line feed, vertical tab, form feed,
carriage return, space, no-break space (U+00A0), ogham space mark
(U+1680), the en-quad to hair-space range (U+2000 to U+200A), line and
paragraph separators (U+2028, U+2029), narrow no-break space (U+202F),
medium mathematical space (U+205F), ideographic space (U+3000) and the
byte-order mark (U+FEFF). -/
def isJsSpace (c : Char) : Bool :=
  c == ' ' || c == '\t' || c == '\n' || c == '\r' ||
    c.toNat == 11 || c.toNat == 12 ||
    c.toNat == 160 || c.toNat == 5760 ||
    (decide (8192 ≤ c.toNat) && decide (c.toNat ≤ 8202)) ||
    c.toNat == 8232 || c.toNat == 8233 || c.toNat == 8239 ||
    c.toNat == 8287 || c.toNat == 12288 || c.toNat == 65279

/-- Splitting a character list on maximal whitespace runs, mirroring the
JavaScript `split` on a whitespace-plus regex (leading or trailing
whitespace contributes an empty token); `inGap` records that the previous
character was part of an already consumed whitespace run. -/
def splitWsAux : List Char → Bool → List Char → List (List Char)
  | [], _, acc => [acc.reverse]
  | ch :: cs, inGap, acc =>
    if isJsSpace ch then
      if inGap then splitWsAux cs true []
      else acc.reverse :: splitWsAux cs true []
    else splitWsAux cs false (ch :: acc)

/-- `commentBody.split(whitespace regex)` from `BountyManager.handleClaim`. -/
def splitWs (s : String) : List String :=
  (splitWsAux s.toList false []).map (fun l => String.mk l)

/-- Guidance comment for a `/claim` without a wallet token. -/
def invalidClaimUsageMsg : String :=
  "**Invalid claim command**\n\nUsage: `/claim <wallet_address>`"

/-- Guidance comment for an unparseable wallet address. -/
def invalidWalletMsg : String :=
  "**Invalid wallet address**\n\nPlease provide a valid wallet address."

/-- Rejection comment posted when the maintainer check fails. -/
def maintainersOnlyMsg : String :=
  "Only repository maintainers can create bounties."

/-- The success comment posted on the pull request after a release;
`solDisplay` stands for the floating-point `lamportsToSol` display. -/
def bountyReleasedPrComment (solDisplay : Nat → String) (commenter : String)
    (li : LinkedIssue) (wallet url : String) : String :=
  "**Bounty released to @" ++ commenter ++ "**\n\n" ++
    "Issue: #" ++ toString li.number ++ "\n" ++
    "Amount: " ++ solDisplay li.bountyAmount ++ " SOL\n" ++
    "Recipient wallet: `" ++ wallet ++ "`\n" ++
    "Transaction: " ++ url

/-- The marker comment posted on the linked issue after a release
(`BountyManager.handleClaim`, success path). -/
def bountyClaimedIssueComment (commenter : String) (prNumber : Nat)
    (url : String) : String :=
  "**Bounty claimed**" ++ "\n\n" ++
    "This bounty has been claimed by @" ++ commenter ++ " via PR #" ++
    toString prNumber ++ ".\n" ++
    "Transaction: " ++ url

/-- The instructional comment posted after escrow creation
(`BountyManager.handleLabeled`, success path). -/
def bountyCreatedComment (solDisplay : Nat → String) (amount : Nat)
    (url : String) (issueNumber : Nat) : String :=
  "**Bounty escrow created**\n\n" ++
    "Amount: " ++ solDisplay amount ++ " SOL\n" ++
    "Transaction: " ++ url ++ "\n\n" ++
    "To claim this bounty:\n" ++
    "1. Get assigned to this issue with `/assign`\n" ++
    "2. Create a PR that fixes this issue (include \"Fixes #" ++
    toString issueNumber ++ "\" in the PR description)\n" ++
    "3. Get your PR merged\n" ++
    "4. Comment `/claim <your_wallet_address>` on your merged PR"

/-- One externally visible step taken by the BountyManager, recorded in
execution order. -/
inductive ManagerAction where
  | postComment (repo : String) (issueNumber : Nat) (body : String)
  | providerCall (c : ProviderCall)
  | checkIsMaintainer (repo username : String)
  | releaseEscrowCall (issueNumber : Nat) (recipient : String)
  | createEscrowCall (issueNumber amount : Nat)
  | notify (eventType : String) (issueNumber : Nat)
deriving DecidableEq

/-- Results of the payment-provider and maintainer calls the manager
awaits, plus the `lamportsToSol` display function (floating point,
abstracted). -/
structure ManagerEnv where
  parseWalletAddress : String → Except Unit String
  releaseEscrow : Nat → String → Except String String
  createEscrow : Nat → Nat → Except String String
  checkIsMaintainer : String → String → Bool
  lamportsToSol : Nat → String

/-- Model of `BountyManager.handleClaim`, returning the ordered list of
externally visible actions. The wallet token is the second
whitespace-delimited part of the comment body; the `!walletStr` guard is
the emptiness test (covering both a missing index and an empty string). -/
def handleClaim (menv : ManagerEnv) (cenv : ClaimEnv) (cfg : SecurityConfig)
    (repo : String) (prNumber : Nat) (commenter : String)
    (commentBody : String) : List ManagerAction :=
  let walletStr := (splitWs commentBody).getD 1 ""
  if walletStr = "" then
    [ManagerAction.postComment repo prNumber invalidClaimUsageMsg]
  else
    match menv.parseWalletAddress walletStr with
    | Except.error _ => [ManagerAction.postComment repo prNumber invalidWalletMsg]
    | Except.ok wallet =>
      let v := validateClaim cenv cfg prNumber commenter
      let callActions := v.2.map ManagerAction.providerCall
      if v.1.isValid = false then
        callActions ++ v.1.errors.map (fun e => ManagerAction.postComment repo prNumber e)
      else
        match v.1.linkedIssue with
        | none => callActions
        | some li =>
          callActions ++
            ManagerAction.releaseEscrowCall li.number wallet ::
            (match menv.releaseEscrow li.number wallet with
            | Except.ok url =>
              [ManagerAction.postComment repo prNumber
                  (bountyReleasedPrComment menv.lamportsToSol commenter li wallet url),
                ManagerAction.postComment repo li.number
                  (bountyClaimedIssueComment commenter prNumber url),
                ManagerAction.notify "bounty_claimed" li.number]
            | Except.error m =>
              [ManagerAction.postComment repo prNumber
                  ("Failed to release bounty: " ++ m)])

/-- C6: in every execution of the claim handler, a release call appears in
the action trace only when the validation returned by the security
validator for that claim attempt is valid; when it is invalid the handler
posts exactly the validation errors as comments after the provider calls of the validator, with no payment-provider call. -/
theorem handleClaim_release_gated (menv : ManagerEnv) (cenv : ClaimEnv)
    (cfg : SecurityConfig) (repo : String) (pr : Nat) (commenter body : String) :
    (∀ n w, ManagerAction.releaseEscrowCall n w ∈
        handleClaim menv cenv cfg repo pr commenter body →
      (validateClaim cenv cfg pr commenter).1.isValid = true) ∧
    (∀ w, (splitWs body).getD 1 "" ≠ "" →
      menv.parseWalletAddress ((splitWs body).getD 1 "") = Except.ok w →
      (validateClaim cenv cfg pr commenter).1.isValid = false →
      handleClaim menv cenv cfg repo pr commenter body =
        (validateClaim cenv cfg pr commenter).2.map ManagerAction.providerCall ++
          (validateClaim cenv cfg pr commenter).1.errors.map
            (fun e => ManagerAction.postComment repo pr e)) := by
  constructor
  · intro n w hmem
    unfold handleClaim at hmem
    by_cases hw : (splitWs body).getD 1 "" = ""
    · rw [if_pos hw] at hmem
      simp at hmem
    · rw [if_neg hw] at hmem
      rcases hp : menv.parseWalletAddress ((splitWs body).getD 1 "") with u | w2 <;>
        simp only [hp] at hmem
      · simp at hmem
      · by_cases hv : (validateClaim cenv cfg pr commenter).1.isValid = false
        · rw [if_pos hv] at hmem
          simp at hmem
        · simpa using hv
  · intro w hw hp hv
    unfold handleClaim
    rw [if_neg hw]
    simp only [hp]
    rw [if_pos hv]

/-- A manager environment that accepts every wallet string verbatim and
whose chain calls fail. -/
def menvOk : ManagerEnv where
  parseWalletAddress := fun s => Except.ok s
  releaseEscrow := fun _ _ => Except.error "no"
  createEscrow := fun _ _ => Except.error "no"
  checkIsMaintainer := fun _ _ => false
  lamportsToSol := fun _ => "0"

/-- Witness for C6: a failing validation leads to the error comment and
nothing else. -/
theorem handleClaim_release_gated_witness :
    (splitWs "/claim w1").getD 1 "" ≠ "" ∧
    menvOk.parseWalletAddress ((splitWs "/claim w1").getD 1 "") = Except.ok "w1" ∧
    (validateClaim claimEnvErr cfgNone 50 "alice").1.isValid = false ∧
    handleClaim menvOk claimEnvErr cfgNone "org/repo" 50 "alice" "/claim w1" =
      (validateClaim claimEnvErr cfgNone 50 "alice").2.map ManagerAction.providerCall ++
        (validateClaim claimEnvErr cfgNone 50 "alice").1.errors.map
          (fun e => ManagerAction.postComment "org/repo" 50 e) := by
  refine ⟨by decide, rfl, by decide, ?_⟩
  exact (handleClaim_release_gated menvOk claimEnvErr cfgNone "org/repo" 50
    "alice" "/claim w1").2 "w1" (by decide) rfl (by decide)

/-- C8: a `/claim` whose first whitespace-delimited argument is missing or
empty, or does not parse as a wallet address, produces exactly one guidance
comment: no validator provider call, no payment-provider call, no other
action. -/
theorem handleClaim_malformed_guidance (menv : ManagerEnv) (cenv : ClaimEnv)
    (cfg : SecurityConfig) (repo : String) (pr : Nat) (commenter body : String) :
    ((splitWs body).getD 1 "" = "" →
      handleClaim menv cenv cfg repo pr commenter body =
        [ManagerAction.postComment repo pr invalidClaimUsageMsg]) ∧
    ((splitWs body).getD 1 "" ≠ "" →
      menv.parseWalletAddress ((splitWs body).getD 1 "") = Except.error () →
      handleClaim menv cenv cfg repo pr commenter body =
        [ManagerAction.postComment repo pr invalidWalletMsg]) := by
  constructor
  · intro hw
    unfold handleClaim
    rw [if_pos hw]
  · intro hw hp
    unfold handleClaim
    rw [if_neg hw, hp]

/-- Witness for C8: `/claim` with no address token on PR 50. -/
theorem handleClaim_malformed_guidance_witness :
    (splitWs "/claim").getD 1 "" = "" ∧
    handleClaim menvOk claimEnvErr cfgNone "org/repo" 50 "alice" "/claim" =
      [ManagerAction.postComment "org/repo" 50 invalidClaimUsageMsg] := by
  refine ⟨by decide, ?_⟩
  exact (handleClaim_malformed_guidance menvOk claimEnvErr cfgNone "org/repo" 50
    "alice" "/claim").1 (by decide)

/-! ## Escrow gateway (SolanaProvider.ts) -/

/-- The chain-facing environment of the SolanaProvider: the library PDA
derivation and the `connection.getAccountInfo` lookup. -/
structure SolanaEnv (α : Type) where
  findProgramAddress : List (List Nat) → List Nat → α
  getAccountInfo : α → Option Unit

/-- Model of `SolanaProvider.createEscrow`: derive the PDA, throw if an
account already exists there, otherwise encode the CreateEscrow
instruction data and submit one transaction carrying it. The second
component lists the instruction-data payloads submitted. -/
def SolanaProvider.createEscrow {α : Type} (env : SolanaEnv α)
    (programId : List Nat) (issueNumber : Nat) (repositoryHash : List Nat)
    (amount : Nat) (sendTransaction : List Nat → String) :
    Except String String × List (List Nat) :=
  let escrowPda := env.findProgramAddress (escrowSeeds repositoryHash issueNumber) programId
  match env.getAccountInfo escrowPda with
  | some _ => (Except.error "Escrow already exists for this issue", [])
  | none =>
    let data := createEscrowData ⟨repositoryHash, issueNumber, amount⟩
    (Except.ok (sendTransaction data), [data])

/-- Model of `SolanaProvider.releaseEscrow`: derive the PDA, throw if no
account exists there, otherwise encode the ReleaseEscrow instruction data
and submit one transaction carrying it (the recipient appears in the
account keys, not in the data). -/
def SolanaProvider.releaseEscrow {α : Type} (env : SolanaEnv α)
    (programId : List Nat) (issueNumber : Nat) (repositoryHash : List Nat)
    (recipient : String) (sendTransaction : List Nat → String) :
    Except String String × List (List Nat) :=
  let escrowPda := env.findProgramAddress (escrowSeeds repositoryHash issueNumber) programId
  match env.getAccountInfo escrowPda with
  | none => (Except.error "Escrow does not exist for this issue", [])
  | some _ =>
    let data := releaseEscrowData ⟨repositoryHash, issueNumber⟩
    (Except.ok (sendTransaction data), [data])

/-- C7: gateway precondition violations are raised before any submission:
createEscrow throws the already-exists error when the account lookup at
the derived address finds an account, releaseEscrow throws the not-found
error when it finds none, and in both error cases no instruction data is
encoded or submitted. -/
theorem escrowGateway_preconditions {α : Type} (env : SolanaEnv α)
    (pid rh : List Nat) (i a : Nat) (st : List Nat → String) (recipient : String) :
    (env.getAccountInfo (env.findProgramAddress (escrowSeeds rh i) pid) ≠ none →
      SolanaProvider.createEscrow env pid i rh a st =
        (Except.error "Escrow already exists for this issue", [])) ∧
    (env.getAccountInfo (env.findProgramAddress (escrowSeeds rh i) pid) = none →
      SolanaProvider.releaseEscrow env pid i rh recipient st =
        (Except.error "Escrow does not exist for this issue", [])) := by
  constructor
  · intro h
    unfold SolanaProvider.createEscrow
    rcases hx : env.getAccountInfo (env.findProgramAddress (escrowSeeds rh i) pid) with _ | u
    · exact absurd hx h
    · simp only [hx]
  · intro h
    unfold SolanaProvider.releaseEscrow
    simp only [h]

/-- A chain environment in which every derived address is occupied. -/
def solanaEnvSome : SolanaEnv (List (List Nat)) where
  findProgramAddress := fun s _ => s
  getAccountInfo := fun _ => some ()

/-- A chain environment in which no account exists. -/
def solanaEnvNone : SolanaEnv (List (List Nat)) where
  findProgramAddress := fun s _ => s
  getAccountInfo := fun _ => none

/-- Witness for C7 at concrete chain environments. -/
theorem escrowGateway_preconditions_witness :
    SolanaProvider.createEscrow solanaEnvSome [9] 42 [1] 5 (fun _ => "tx") =
      (Except.error "Escrow already exists for this issue", []) ∧
    SolanaProvider.releaseEscrow solanaEnvNone [9] 42 [1] "w" (fun _ => "tx") =
      (Except.error "Escrow does not exist for this issue", []) :=
  ⟨(escrowGateway_preconditions solanaEnvSome [9] [1] 42 5 (fun _ => "tx") "w").1
      (by simp [solanaEnvSome]),
    (escrowGateway_preconditions solanaEnvNone [9] [1] 42 5 (fun _ => "tx") "w").2 rfl⟩

/-! ## Claim-marker detection (GithubProvider.isBountyAlreadyClaimed) -/

/-- ASCII lowercasing, the effect of the case-insensitive regex flag on
the characters involved. -/
def toLowerAscii (c : Char) : Char :=
  if 65 ≤ c.toNat ∧ c.toNat ≤ 90 then Char.ofNat (c.toNat + 32) else c

/-- Whether `pat` is a prefix of `s`. -/
def startsWithChars : List Char → List Char → Bool
  | [], _ => true
  | _ :: _, [] => false
  | p :: ps, c :: cs => p == c && startsWithChars ps cs

/-- Whether `pat` occurs contiguously anywhere in the text, the unanchored
regex search. -/
def containsChars (pat : List Char) : List Char → Bool
  | [] => startsWithChars pat []
  | c :: cs => startsWithChars pat (c :: cs) || containsChars pat cs

/-- The claim-detection pattern of `isBountyAlreadyClaimed`: the
case-insensitive regex matching `**Bounty released**` or
`**Bounty claimed**` anywhere in a comment body. -/
def claimPatternTest (body : String) : Bool :=
  containsChars ("**bounty released**".toList) (body.toList.map toLowerAscii) ||
    containsChars ("**bounty claimed**".toList) (body.toList.map toLowerAscii)

/-- A fetched issue comment as inspected by `isBountyAlreadyClaimed`. -/
structure GhComment where
  userType : String
  body : String

/-- Model of `GithubProvider.isBountyAlreadyClaimed` over the fetched
comment list: some Bot comment matches the claim pattern. -/
def isBountyAlreadyClaimed (comments : List GhComment) : Bool :=
  comments.any (fun cm => cm.userType == "Bot" && claimPatternTest cm.body)

theorem startsWithChars_append (pat rest : List Char) :
    startsWithChars pat (pat ++ rest) = true := by
  induction pat with
  | nil => rfl
  | cons p ps ih => simp [startsWithChars, ih]

theorem containsChars_of_startsWith (pat s : List Char)
    (h : startsWithChars pat s = true) : containsChars pat s = true := by
  cases s with
  | nil => simpa [containsChars] using h
  | cons c cs => simp [containsChars, h]

theorem string_toList_append (a b : String) :
    (a ++ b).toList = a.toList ++ b.toList := rfl

theorem lower_marker :
    "**Bounty claimed**".toList.map toLowerAscii = "**bounty claimed**".toList := by
  decide

/-- C9: the marker comment the manager posts on the linked issue after a
successful release matches the claim-detection pattern of
`isBountyAlreadyClaimed`, so on a second claim attempt whose environment
serves the stored comments (the marker present as a Bot comment), check 5
reports a prior claim and validation fails with the already-claimed
message. -/
theorem claimedMarker_detected_roundtrip (commenter : String) (prNumber : Nat)
    (url : String) (comments : List GhComment) (cenv : ClaimEnv)
    (cfg : SecurityConfig) (pr : Nat) (c : String) (prData : PullRequest)
    (li : LinkedIssue)
    (hmem : GhComment.mk "Bot" (bountyClaimedIssueComment commenter prNumber url) ∈ comments)
    (h1 : cenv.getPullRequest pr = Except.ok prData)
    (h2 : ¬(cfg.requireMergedPR ≠ some false ∧ prData.merged = false))
    (h3 : prData.userLogin = c)
    (h4 : cenv.findLinkedIssueWithBounty pr = Except.ok (some li))
    (h5 : cfg.skipAssignmentCheck = some true ∨
      cenv.wasUserEverAssigned li.number c = Except.ok true)
    (h6 : cenv.isBountyAlreadyClaimed li.number =
      Except.ok (isBountyAlreadyClaimed comments)) :
    claimPatternTest (bountyClaimedIssueComment commenter prNumber url) = true ∧
    isBountyAlreadyClaimed comments = true ∧
    (validateClaim cenv cfg pr c).1 =
      ⟨false, none, [alreadyClaimedMsg li.number]⟩ := by
  have hpat : claimPatternTest (bountyClaimedIssueComment commenter prNumber url) = true := by
    have hr : (bountyClaimedIssueComment commenter prNumber url).toList =
        "**Bounty claimed**".toList ++
          ("\n\n" ++ "This bounty has been claimed by @" ++ commenter ++ " via PR #" ++
            toString prNumber ++ ".\n" ++ "Transaction: " ++ url).toList := by
      unfold bountyClaimedIssueComment
      simp only [string_toList_append, List.append_assoc]
    unfold claimPatternTest
    rw [hr, List.map_append, lower_marker,
      containsChars_of_startsWith _ _ (startsWithChars_append _ _)]
    simp
  have hclaimed : isBountyAlreadyClaimed comments = true := by
    unfold isBountyAlreadyClaimed
    rw [List.any_eq_true]
    exact ⟨_, hmem, by simp [hpat]⟩
  refine ⟨hpat, hclaimed, ?_⟩
  have h6t : cenv.isBountyAlreadyClaimed li.number = Except.ok true := by
    rw [h6, hclaimed]
  unfold validateClaim
  simp only [h1]
  rw [if_neg h2, if_neg (by simp [h3])]
  simp only [h4]
  unfold assignmentCheck
  rcases h5 with h5 | h5
  · rw [if_neg (by simp [h5])]
    unfold alreadyClaimedCheck
    simp [h6t]
  · by_cases hskip : cfg.skipAssignmentCheck = some true
    · rw [if_neg (by simp [hskip])]
      unfold alreadyClaimedCheck
      simp [h6t]
    · rw [if_pos hskip]
      simp only [h5]
      unfold alreadyClaimedCheck
      simp [h6t]

/-- A stored comment list holding the marker comment posted by the manager. -/
def ghCommentsClaimed : List GhComment :=
  [⟨"Bot", bountyClaimedIssueComment "alice" 50 "url"⟩]

/-- An environment for a second claim attempt over the stored comments:
the pull request is merged and authored by the commenter, issue 42 is
linked, the commenter was assigned, and the already-claimed lookup serves
the stored comments. -/
def claimEnvClaimed : ClaimEnv where
  getPullRequest := fun _ => Except.ok ⟨50, "closed", true, "alice"⟩
  findLinkedIssueWithBounty := fun _ => Except.ok (some ⟨42, 1000000000, "bounty-1-sol"⟩)
  wasUserEverAssigned := fun _ _ => Except.ok true
  isBountyAlreadyClaimed := fun _ => Except.ok (isBountyAlreadyClaimed ghCommentsClaimed)

/-- Witness for C9 at a concrete second claim attempt. -/
theorem claimedMarker_detected_roundtrip_witness :
    isBountyAlreadyClaimed ghCommentsClaimed = true ∧
    (validateClaim claimEnvClaimed cfgNone 50 "alice").1 =
      ⟨false, none, [alreadyClaimedMsg 42]⟩ := by
  have h := claimedMarker_detected_roundtrip "alice" 50 "url" ghCommentsClaimed
    claimEnvClaimed cfgNone 50 "alice" ⟨50, "closed", true, "alice"⟩
    ⟨42, 1000000000, "bounty-1-sol"⟩
    (by simp [ghCommentsClaimed]) rfl (by simp) rfl rfl (Or.inr rfl) rfl
  exact ⟨h.2.1, h.2.2⟩

/-! ## Bounty creation (BountyManager.handleLabeled) -/

/-- Model of `BountyManager.getBountyAmount`: `this.bountyConfig[label] || null`
(a missing label, and a zero amount, both yield null). -/
def getBountyAmount (bountyConfig : List (String × Nat)) (label : String) : Option Nat :=
  match bountyConfig.lookup label with
  | some a => if a = 0 then none else some a
  | none => none

/-- The escrow-creation tail of `handleLabeled`, reached after the
maintainer gate: look up the label amount (non-bounty labels are ignored
silently), then create the escrow and post the instructional comment, or
post the failure comment. -/
def handleLabeledCreate (menv : ManagerEnv) (bountyConfig : List (String × Nat))
    (repo : String) (issueNumber : Nat) (label : String) : List ManagerAction :=
  match getBountyAmount bountyConfig label with
  | none => []
  | some amount =>
    ManagerAction.createEscrowCall issueNumber amount ::
      (match menv.createEscrow issueNumber amount with
      | Except.ok url =>
        [ManagerAction.postComment repo issueNumber
            (bountyCreatedComment menv.lamportsToSol amount url issueNumber),
          ManagerAction.notify "bounty_created" issueNumber]
      | Except.error m =>
        [ManagerAction.postComment repo issueNumber
            ("Failed to create bounty escrow: " ++ m)])

/-- Model of `BountyManager.handleLabeled`: the maintainer gate runs
unless `requireMaintainerForBountyCreation` is exactly false, a failed
gate posts the rejection comment and stops, then the creation tail runs. -/
def handleLabeled (menv : ManagerEnv) (cfg : SecurityConfig)
    (bountyConfig : List (String × Nat)) (repo : String) (issueNumber : Nat)
    (label sender : String) : List ManagerAction :=
  if cfg.requireMaintainerForBountyCreation ≠ some false then
    ManagerAction.checkIsMaintainer repo sender ::
      (if menv.checkIsMaintainer repo sender = false then
        [ManagerAction.postComment repo issueNumber maintainersOnlyMsg]
      else handleLabeledCreate menv bountyConfig repo issueNumber label)
  else handleLabeledCreate menv bountyConfig repo issueNumber label

/-- C10: the security defaults are fail-secure when a flag is omitted:
with `requireMaintainerForBountyCreation` undefined the maintainer check
runs (and blocks a non-maintainer) while an explicit false removes it;
with `requireMergedPR` undefined an unmerged PR is rejected; with
`skipAssignmentCheck` undefined the assignment check runs (and an explicit
true removes it). -/
theorem security_defaults_fail_secure (menv : ManagerEnv) (cenv : ClaimEnv)
    (cfg : SecurityConfig) (bountyConfig : List (String × Nat))
    (repo : String) (issueNumber : Nat) (label sender : String)
    (pr : Nat) (c : String) (prData : PullRequest) (li : LinkedIssue) :
    (cfg.requireMaintainerForBountyCreation = none →
      ManagerAction.checkIsMaintainer repo sender ∈
        handleLabeled menv cfg bountyConfig repo issueNumber label sender) ∧
    (cfg.requireMaintainerForBountyCreation = some false →
      ManagerAction.checkIsMaintainer repo sender ∉
        handleLabeled menv cfg bountyConfig repo issueNumber label sender) ∧
    (cfg.requireMaintainerForBountyCreation = none →
      menv.checkIsMaintainer repo sender = false →
      handleLabeled menv cfg bountyConfig repo issueNumber label sender =
        [ManagerAction.checkIsMaintainer repo sender,
          ManagerAction.postComment repo issueNumber maintainersOnlyMsg]) ∧
    (cfg.requireMergedPR = none → cenv.getPullRequest pr = Except.ok prData →
      prData.merged = false →
      validateClaim cenv cfg pr c =
        (⟨false, none, [cannotClaimUnmergedMsg]⟩, [ProviderCall.getPullRequest pr])) ∧
    (cfg.skipAssignmentCheck = none → cenv.getPullRequest pr = Except.ok prData →
      ¬(cfg.requireMergedPR ≠ some false ∧ prData.merged = false) →
      prData.userLogin = c →
      cenv.findLinkedIssueWithBounty pr = Except.ok (some li) →
      ProviderCall.wasUserEverAssigned li.number c ∈ (validateClaim cenv cfg pr c).2) ∧
    (cfg.skipAssignmentCheck = some true → cenv.getPullRequest pr = Except.ok prData →
      ProviderCall.wasUserEverAssigned li.number c ∉ (validateClaim cenv cfg pr c).2) := by
  refine ⟨?_, ?_, ?_, ?_, ?_, ?_⟩
  · intro h
    unfold handleLabeled
    rw [if_pos (by simp [h])]
    simp
  · intro h
    unfold handleLabeled
    rw [if_neg (by simp [h])]
    unfold handleLabeledCreate
    rcases hga : getBountyAmount bountyConfig label with _ | amount <;> simp only [hga]
    · simp
    · rcases hcr : menv.createEscrow issueNumber amount with m | url <;> simp [hcr]
  · intro h hm
    unfold handleLabeled
    rw [if_pos (by simp [h]), if_pos hm]
  · intro h h1 hm
    unfold validateClaim
    simp only [h1]
    rw [if_pos (by simp [h, hm])]
  · intro h h1 hmerged hauth h3
    unfold validateClaim
    simp only [h1]
    rw [if_neg hmerged, if_neg (by simp [hauth])]
    simp only [h3]
    unfold assignmentCheck
    rw [if_pos (by simp [h])]
    rcases cenv.wasUserEverAssigned li.number c with m | b
    · simp
    · cases b
      · simp
      · unfold alreadyClaimedCheck
        rcases cenv.isBountyAlreadyClaimed li.number with m | b2
        · simp
        · cases b2 <;> simp
  · intro h h1
    unfold validateClaim
    simp only [h1]
    split
    · simp
    · split
      · simp
      · split
        · simp
        · simp
        · unfold assignmentCheck
          rw [if_neg (by simp [h])]
          unfold alreadyClaimedCheck
          split <;> simp

/-- An environment whose pull request is open and unmerged. -/
def claimEnvUnmerged : ClaimEnv where
  getPullRequest := fun _ => Except.ok ⟨50, "open", false, "alice"⟩
  findLinkedIssueWithBounty := fun _ => Except.ok (some ⟨42, 1000000000, "bounty-1-sol"⟩)
  wasUserEverAssigned := fun _ _ => Except.ok true
  isBountyAlreadyClaimed := fun _ => Except.ok false

/-- Witness for C10 at the all-omitted configuration. -/
theorem security_defaults_fail_secure_witness :
    ManagerAction.checkIsMaintainer "org/repo" "mallory" ∈
      handleLabeled menvOk cfgNone [("bounty-1-sol", 1000000000)] "org/repo" 42
        "bounty-1-sol" "mallory" ∧
    handleLabeled menvOk cfgNone [("bounty-1-sol", 1000000000)] "org/repo" 42
        "bounty-1-sol" "mallory" =
      [ManagerAction.checkIsMaintainer "org/repo" "mallory",
        ManagerAction.postComment "org/repo" 42 maintainersOnlyMsg] ∧
    validateClaim claimEnvUnmerged cfgNone 50 "alice" =
      (⟨false, none, [cannotClaimUnmergedMsg]⟩, [ProviderCall.getPullRequest 50]) := by
  have h := security_defaults_fail_secure menvOk claimEnvUnmerged cfgNone
    [("bounty-1-sol", 1000000000)] "org/repo" 42 "bounty-1-sol" "mallory" 50 "alice"
    ⟨50, "open", false, "alice"⟩ ⟨42, 1000000000, "bounty-1-sol"⟩
  exact ⟨h.1 rfl, h.2.2.1 rfl rfl, h.2.2.2.1 rfl rfl rfl⟩
